import Mathlib

/-!
Verification of the UR5 simulation control core (`UR5/UR5Sim.py`).

The pybullet engine, the URDF parser and the external lively solver are
external collaborators: they enter the embedding as opaque inputs
(the raw joint list reported by the simulator, the contact-point list,
the quaternion converter, the numeric IK oracle).  The code of the
repository itself — joint registry construction in `UR5Sim.__init__`,
`set_joint_angles`, `check_collisions`, `calculate_ik`, and the event
order of the `demo_simulation` loop — is translated directly below.

Numeric scalars in the source are Python floats whose literals are
rational numbers or rational multiples of `math.pi`; they are modelled
exactly as formal values `a + b·π` with `a b : ℚ` (`SVal`).  No claim
here computes with these scalars: they are only constructed, stored and
compared, so the exact representation is faithful.
-/

/-- Exact scalar `a + b·π`, the carrier for every numeric value the source
passes around (joint limits, forces, target angles, gains, damping). -/
structure SVal where
  a : ℚ
  b : ℚ
deriving DecidableEq, Repr

/-- The scalar `0`. -/
def SVal.zero : SVal := ⟨0, 0⟩

/-- Embed a rational literal of the source. -/
def SVal.ofRat (q : ℚ) : SVal := ⟨q, 0⟩

/-- The scalar `math.pi`. -/
def SVal.pi : SVal := ⟨0, 1⟩

/-- The scalar `-math.pi`. -/
def SVal.negPi : SVal := ⟨0, -1⟩

/-- The scalar `2*math.pi`. -/
def SVal.twoPi : SVal := ⟨0, 2⟩

/-- The scalar `-math.pi/2`. -/
def SVal.negHalfPi : SVal := ⟨0, -(1/2)⟩

/-- One row of `pybullet.getJointInfo`, the simulator-boundary input to
`UR5Sim.__init__`: joint index (`info[0]`), decoded name (`info[1]`),
raw type code (`info[2]`), lower/upper limit (`info[8]`, `info[9]`),
max force (`info[10]`) and max velocity (`info[11]`). -/
structure RawJointInfo where
  id : Int
  name : String
  typeCode : Nat
  lowerLimit : SVal
  upperLimit : SVal
  maxForce : SVal
  maxVelocity : SVal
deriving DecidableEq, Repr

/-- The per-joint record `jointInfo` built by `UR5Sim.__init__`
(`namedtuple` with fields id, name, type, lowerLimit, upperLimit,
maxForce, maxVelocity, controllable). -/
structure JointInfo where
  id : Int
  name : String
  jtype : String
  lowerLimit : SVal
  upperLimit : SVal
  maxForce : SVal
  maxVelocity : SVal
  controllable : Bool
deriving DecidableEq, Repr

/-- A `pybullet.setJointMotorControl2(..., VELOCITY_CONTROL, targetVelocity=0,
force=0)` command as issued during `__init__` (line 47). -/
structure MotorControl2Cmd where
  jointId : Int
  targetVelocity : SVal
  force : SVal
deriving DecidableEq, Repr

/-- The single batched `pybullet.setJointMotorControlArray(...)` command
issued by `set_joint_angles` (lines 71-77). -/
structure MotorArrayCmd where
  indexes : List Int
  targetPositions : List SVal
  targetVelocities : List SVal
  positionGains : List SVal
  forces : List SVal
deriving DecidableEq, Repr

/-- The fixed six controllable joint names, `self.control_joints` (line 30). -/
def control_joints : List String :=
  ["shoulder_pan_joint", "shoulder_lift_joint", "elbow_joint",
   "wrist_1_joint", "wrist_2_joint", "wrist_3_joint"]

/-- The type-code classification table `self.joint_type_list` (line 31),
indexed by the raw pybullet type code. -/
def joint_type_list : List String :=
  ["REVOLUTE", "PRISMATIC", "SPHERICAL", "PLANAR", "FIXED"]

/-- The value of `self.end_effector_index` (line 26). -/
def end_effector_index : Nat := 7

/-- Python dict assignment `d[k] = v` on an insertion-ordered dict
(`self.joints[info.name] = info`, line 48): replace in place when the key
exists, append otherwise. -/
def dictUpdate (d : List (String × JointInfo)) (k : String) (v : JointInfo) :
    List (String × JointInfo) :=
  if d.any (fun p => p.1 = k) then
    d.map (fun p => if p.1 = k then (k, v) else p)
  else
    d ++ [(k, v)]

/-- Python dict lookup `d[k]` as an `Option` (a missing key is a
`KeyError`). -/
def dictLookup : List (String × JointInfo) → String → Option JointInfo
  | [], _ => none
  | p :: rest, k => if p.1 = k then some p.2 else dictLookup rest k

/-- The joint-enumeration loop of `UR5Sim.__init__` (lines 35-48), one raw
joint per step.  State: the dict `self.joints` built so far and the
velocity-control commands issued so far.  `joint_type_list[info[2]]`
(line 39) raises `IndexError` for an out-of-range type code, modelled as
`none`; `controllable` is the membership test of line 44; the
`VELOCITY_CONTROL` command of lines 46-47 is issued exactly when the
classified type is REVOLUTE. -/
def initJoints (d : List (String × JointInfo)) (cmds : List MotorControl2Cmd) :
    List RawJointInfo → Option (List (String × JointInfo) × List MotorControl2Cmd)
  | [] => some (d, cmds)
  | r :: rest =>
    match joint_type_list[r.typeCode]? with
    | none => none
    | some ty =>
      let info : JointInfo :=
        { id := r.id, name := r.name, jtype := ty,
          lowerLimit := r.lowerLimit, upperLimit := r.upperLimit,
          maxForce := r.maxForce, maxVelocity := r.maxVelocity,
          controllable := decide (r.name ∈ control_joints) }
      let cmds2 :=
        if ty = "REVOLUTE" then
          cmds ++ [{ jointId := info.id, targetVelocity := SVal.zero, force := SVal.zero }]
        else cmds
      initJoints (dictUpdate d info.name info) cmds2 rest

/-- The body of `UR5Sim.__init__` from the point where the simulator has reported the
robot's joints (lines 30-48): classify every reported joint, build the
registry `self.joints`, and record the startup velocity-disable commands.
Loading the URDFs and enumerating joints (lines 23-28) is the simulator
boundary; its result is the input `raws`. -/
def UR5Init (raws : List RawJointInfo) :
    Option (List (String × JointInfo) × List MotorControl2Cmd) :=
  initJoints [] [] raws

/-- The resolution loop of `set_joint_angles` (lines 63-67): for each
`(name, pose)` of the configuration in order, look `name` up in
`self.joints` (a missing name is a `KeyError`, i.e. `none`) and collect
`(pose, joint.id, joint.maxForce)`. -/
def resolveEntries (joints : List (String × JointInfo)) :
    List (String × SVal) → Option (List (SVal × Int × SVal))
  | [] => some []
  | (name, pose) :: rest =>
    match dictLookup joints name with
    | none => none
    | some j =>
      match resolveEntries joints rest with
      | none => none
      | some tail => some ((pose, j.id, j.maxForce) :: tail)

/-- The function `UR5Sim.set_joint_angles` (lines 58-77): resolve every key of the
configuration against the registry, then issue one batched
`POSITION_CONTROL` command with the collected indexes, target positions,
`[0]*len(poses)` target velocities, `[0.04]*len(poses)` position gains
and the collected max forces. -/
def set_joint_angles (joints : List (String × JointInfo))
    (joint_angles : List (String × SVal)) : Option MotorArrayCmd :=
  match resolveEntries joints joint_angles with
  | none => none
  | some entries =>
    some { indexes := entries.map (fun e => e.2.1),
           targetPositions := entries.map (fun e => e.1),
           targetVelocities := List.replicate entries.length SVal.zero,
           positionGains := List.replicate entries.length (SVal.ofRat (4/100)),
           forces := entries.map (fun e => e.2.2) }

/-- Observable simulator interactions of `check_collisions`: the single
`pybullet.getContactPoints()` query, and the timestamped console log. -/
inductive CollEvent where
  | query
  | logCollision (t : ℚ)
deriving DecidableEq, Repr

/-- The function `UR5Sim.check_collisions` (lines 86-91), over an abstract contact type
`α`: query the global contact list once; when it is non-empty, log a
timestamped line and return `true`, else return `false`.  Returns the
boolean result together with the emitted event trace. -/
def check_collisions {α : Type} (contacts : List α) (now : ℚ) :
    Bool × List CollEvent :=
  if contacts.length > 0 then
    (true, [CollEvent.query, CollEvent.logCollision now])
  else
    (false, [CollEvent.query])

/-- The argument record of the `pybullet.calculateInverseKinematics` call
in `calculate_ik` (lines 101-106), over abstract position and quaternion
types. -/
structure IKCall (V Q : Type) where
  endEffectorIndex : Nat
  position : V
  targetOrientation : Q
  jointDamping : List SVal
  lowerLimits : List SVal
  upperLimits : List SVal
  jointRanges : List SVal
  restPoses : List SVal

/-- The function `UR5Sim.calculate_ik` (lines 94-107).  The simulator boundary enters
as the opaque functions `getQuaternionFromEuler` and
`calculateInverseKinematics`; the body converts the Euler orientation,
builds the six-element limit/range/rest-pose arrays of lines 96-99, and
returns the IK result directly (no failure branch). -/
def calculate_ik {V E Q R : Type} (getQuaternionFromEuler : E → Q)
    (calculateInverseKinematics : IKCall V Q → R)
    (position : V) (orientation : E) : R :=
  let quaternion := getQuaternionFromEuler orientation
  let lower_limits := List.replicate 6 SVal.negPi
  let upper_limits := List.replicate 6 SVal.pi
  let joint_ranges := List.replicate 6 SVal.twoPi
  let rest_poses := [SVal.zero, SVal.negHalfPi, SVal.negHalfPi,
                     SVal.negHalfPi, SVal.negHalfPi, SVal.zero]
  calculateInverseKinematics
    { endEffectorIndex := end_effector_index,
      position := position,
      targetOrientation := quaternion,
      jointDamping := List.replicate 6 (SVal.ofRat (1/100)),
      lowerLimits := lower_limits,
      upperLimits := upper_limits,
      jointRanges := joint_ranges,
      restPoses := rest_poses }

/-- The phases of `demo_simulation` distinguished by the spec: reading the
wall clock, calling the solver, applying the configuration, the collision
check, one physics step, and the fixed sleep (with its delay in seconds). -/
inductive LoopEvent where
  | readTime
  | solve
  | applyConfig
  | collisionCheck
  | stepSim
  | sleep (delay : ℚ)
deriving DecidableEq, Repr

/-- The body of the `while True:` loop of `demo_simulation` (lines
171-180), in source order: `sim.set_joint_angles` (172),
`sim.check_collisions` (173), `pybullet.stepSimulation` (174),
`time.sleep(1/30)` (175-176), `time.time()` (177), `solver.solve`
(178-180). -/
def loopBody : List LoopEvent :=
  [LoopEvent.applyConfig, LoopEvent.collisionCheck, LoopEvent.stepSim,
   LoopEvent.sleep (1/30), LoopEvent.readTime, LoopEvent.solve]

/-- The phase events before the loop is entered: `time.time()` (line 163)
and the initial `solver.solve` (lines 165-167). -/
def demoPrelude : List LoopEvent :=
  [LoopEvent.readTime, LoopEvent.solve]

/-- The phase-event trace of `demo_simulation` after `n` complete loop
iterations. -/
def demoTrace : Nat → List LoopEvent
  | 0 => demoPrelude
  | n + 1 => demoTrace n ++ loopBody

/-- One full tick in the cyclic order stated by the spec: read time,
solve, apply, collision-check, step, sleep. -/
def tickCycle : List LoopEvent :=
  [LoopEvent.readTime, LoopEvent.solve, LoopEvent.applyConfig,
   LoopEvent.collisionCheck, LoopEvent.stepSim, LoopEvent.sleep (1/30)]

/-- Shape of the batched command issued by `set_joint_angles` on success:
the parallel arrays all have the configuration's length, the target
positions are the configuration values in order, the velocities are all
zero, the gains all `0.04`, and index `i` of `indexes`/`forces` carries the
id/max-force of the joint looked up under the `i`-th configuration key. -/
def BatchShape (joints : List (String × JointInfo)) (cfg : List (String × SVal))
    (cmd : MotorArrayCmd) : Prop :=
  ∃ js : List JointInfo,
    List.Forall₂ (fun np j => dictLookup joints np.1 = some j) cfg js ∧
    cmd.indexes = js.map JointInfo.id ∧
    cmd.targetPositions = cfg.map (fun np => np.2) ∧
    cmd.targetVelocities = List.replicate cfg.length SVal.zero ∧
    cmd.positionGains = List.replicate cfg.length (SVal.ofRat (4/100)) ∧
    cmd.forces = js.map JointInfo.maxForce ∧
    cmd.indexes.length = cfg.length ∧
    cmd.targetPositions.length = cfg.length ∧
    cmd.targetVelocities.length = cfg.length ∧
    cmd.positionGains.length = cfg.length ∧
    cmd.forces.length = cfg.length

/-- Every joint index that receives a motor command via `set_joint_angles`
is the id of a joint registered under one of the configuration's keys
(whether or not that joint is marked controllable). -/
def TargetsRegistered (joints : List (String × JointInfo)) (cfg : List (String × SVal))
    (cmd : MotorArrayCmd) : Prop :=
  ∀ idx ∈ cmd.indexes, ∃ name pose j,
    (name, pose) ∈ cfg ∧ dictLookup joints name = some j ∧ j.id = idx

/-- Every registry entry is keyed by its descriptor's name, and the
descriptor is marked controllable exactly when that name is one of the
fixed six controllable joint names. -/
def RegistryControllableOk (d : List (String × JointInfo)) : Prop :=
  ∀ p ∈ d, p.1 = p.2.name ∧ (p.2.controllable = true ↔ p.2.name ∈ control_joints)

/-- The startup velocity-disable commands dictated by the source: one
zero-velocity zero-force command per reported joint whose classified type
is REVOLUTE, in report order. -/
def RevoluteDisableCmds (raws : List RawJointInfo) : List MotorControl2Cmd :=
  (raws.filter (fun r => decide (joint_type_list[r.typeCode]? = some "REVOLUTE"))).map
    (fun r => ⟨r.id, SVal.zero, SVal.zero⟩)

/-- A UR5e-like joint report: one controllable revolute joint and one
fixed (non-controllable) joint, as pybullet reports them for the robot. -/
def c1raws : List RawJointInfo :=
  [⟨1, "shoulder_pan_joint", 0, SVal.negPi, SVal.pi, ⟨150, 0⟩, ⟨3, 0⟩⟩,
   ⟨8, "ee_fixed_joint", 4, SVal.zero, SVal.zero, SVal.zero, SVal.zero⟩]

/-- The registry built from `c1raws`. -/
def c1reg : List (String × JointInfo) := ((UR5Init c1raws).getD ([], [])).1

/-- A configuration whose only key is a registered but non-controllable
joint. -/
def c1cfgBad : List (String × SVal) := [("ee_fixed_joint", SVal.zero)]

/-- A configuration whose only key is a registered controllable joint. -/
def c1cfgGood : List (String × SVal) := [("shoulder_pan_joint", ⟨1, 0⟩)]

/-- The command `set_joint_angles` issues for `c1cfgGood`. -/
def c1cmd : MotorArrayCmd := (set_joint_angles c1reg c1cfgGood).getD ⟨[], [], [], [], []⟩

/-- A joint report that contains none of the six controllable names. -/
def c2raws : List RawJointInfo :=
  [⟨0, "world_table_fixed", 4, SVal.zero, SVal.zero, SVal.zero, SVal.zero⟩]

/-- A two-controllable-joint report for exercising the batched command. -/
def c4raws : List RawJointInfo :=
  [⟨1, "shoulder_pan_joint", 0, SVal.negPi, SVal.pi, ⟨150, 0⟩, ⟨3, 0⟩⟩,
   ⟨2, "shoulder_lift_joint", 0, SVal.negPi, SVal.pi, ⟨150, 0⟩, ⟨3, 0⟩⟩]

/-- The registry built from `c4raws`. -/
def c4reg : List (String × JointInfo) := ((UR5Init c4raws).getD ([], [])).1

/-- A configuration covering both controllable joints of `c4reg`. -/
def c4cfg : List (String × SVal) :=
  [("shoulder_pan_joint", ⟨1, 0⟩), ("shoulder_lift_joint", ⟨2, 0⟩)]

/-- The command `set_joint_angles` issues for `c4cfg`. -/
def c4cmd : MotorArrayCmd := (set_joint_angles c4reg c4cfg).getD ⟨[], [], [], [], []⟩

/-- A three-joint report: two controllable joints (one revolute) and one
fixed joint. -/
def c6raws : List RawJointInfo :=
  [⟨1, "shoulder_pan_joint", 0, SVal.negPi, SVal.pi, ⟨150, 0⟩, ⟨3, 0⟩⟩,
   ⟨2, "shoulder_lift_joint", 0, SVal.negPi, SVal.pi, ⟨150, 0⟩, ⟨3, 0⟩⟩,
   ⟨8, "ee_fixed_joint", 4, SVal.zero, SVal.zero, SVal.zero, SVal.zero⟩]

/-- The registry and startup commands built from `c6raws`. -/
def c6pair : List (String × JointInfo) × List MotorControl2Cmd :=
  (UR5Init c6raws).getD ([], [])

/-- A joint report with a single revolute joint whose name is outside the
controllable list. -/
def c8raws : List RawJointInfo :=
  [⟨9, "spare_revolute", 0, SVal.zero, SVal.zero, SVal.zero, SVal.zero⟩]

/-- A mixed report: a controllable revolute joint, a fixed joint, and a
revolute joint outside the controllable list. -/
def c8wraws : List RawJointInfo :=
  [⟨1, "shoulder_pan_joint", 0, SVal.zero, SVal.zero, SVal.zero, SVal.zero⟩,
   ⟨8, "ee_fixed_joint", 4, SVal.zero, SVal.zero, SVal.zero, SVal.zero⟩,
   ⟨9, "spare_revolute", 0, SVal.zero, SVal.zero, SVal.zero, SVal.zero⟩]

/-- The registry and startup commands built from `c8wraws`. -/
def c8wpair : List (String × JointInfo) × List MotorControl2Cmd :=
  (UR5Init c8wraws).getD ([], [])

/-- A successful lookup in a `Forall₂`-related pair of lists can be traced
back to an element of the left list. -/
theorem forallTwo_mem_right {α β : Type} {R : α → β → Prop} :
    ∀ {l1 : List α} {l2 : List β}, List.Forall₂ R l1 l2 →
      ∀ b ∈ l2, ∃ a ∈ l1, R a b := by
  intro l1 l2 h
  induction h with
  | nil => intro b hb; cases hb
  | cons hR _ ih =>
    intro b hb
    rcases List.mem_cons.mp hb with h1 | h2
    · exact ⟨_, List.mem_cons_self _ _, h1 ▸ hR⟩
    · obtain ⟨a, ha, haR⟩ := ih b h2
      exact ⟨a, List.mem_cons_of_mem _ ha, haR⟩

/-- The dict-assignment step preserves any per-entry property that the new
entry satisfies. -/
theorem dictUpdate_forall {P : String × JointInfo → Prop}
    (d : List (String × JointInfo)) (k : String) (v : JointInfo)
    (hd : ∀ p ∈ d, P p) (hv : P (k, v)) : ∀ p ∈ dictUpdate d k v, P p := by
  intro p hp
  unfold dictUpdate at hp
  split at hp
  · obtain ⟨q, hq, hfq⟩ := List.mem_map.mp hp
    by_cases hqk : q.1 = k
    · rw [if_pos hqk] at hfq
      rw [← hfq]
      exact hv
    · rw [if_neg hqk] at hfq
      rw [← hfq]
      exact hd q hq
  · rcases List.mem_append.mp hp with h1 | h2
    · exact hd p h1
    · rw [List.mem_singleton.mp h2]
      exact hv

/-- The enumeration loop of `__init__` completes whenever every reported
type code is a valid index into the classification table. -/
theorem initJoints_isSome (raws : List RawJointInfo) :
    ∀ (d : List (String × JointInfo)) (cmds : List MotorControl2Cmd),
      (∀ r ∈ raws, r.typeCode < joint_type_list.length) →
      (initJoints d cmds raws).isSome = true := by
  induction raws with
  | nil => intro d cmds _; rfl
  | cons r rest ih =>
    intro d cmds h
    cases h2 : joint_type_list[r.typeCode]? with
    | none =>
      have hlen := List.getElem?_eq_none_iff.mp h2
      have hr := h r (List.mem_cons_self _ _)
      omega
    | some ty =>
      simp only [initJoints, h2]
      exact ih _ _ (fun x hx => h x (List.mem_cons_of_mem _ hx))

/-- The enumeration loop of `__init__` preserves the registry invariant:
keys equal descriptor names and the controllable flag is exactly
membership in the fixed controllable list. -/
theorem initJoints_registry (raws : List RawJointInfo) :
    ∀ (d : List (String × JointInfo)) (cmds : List MotorControl2Cmd)
      (d2 : List (String × JointInfo)) (cmds2 : List MotorControl2Cmd),
      initJoints d cmds raws = some (d2, cmds2) →
      (∀ p ∈ d, p.1 = p.2.name ∧ (p.2.controllable = true ↔ p.2.name ∈ control_joints)) →
      RegistryControllableOk d2 := by
  induction raws with
  | nil =>
    intro d cmds d2 cmds2 h hd
    simp only [initJoints, Option.some.injEq, Prod.mk.injEq] at h
    rw [← h.1]
    exact hd
  | cons r rest ih =>
    intro d cmds d2 cmds2 h hd
    cases h2 : joint_type_list[r.typeCode]? with
    | none => rw [initJoints, h2] at h; cases h
    | some ty =>
      simp only [initJoints, h2] at h
      refine ih _ _ _ _ h (dictUpdate_forall _ _ _ hd ?_)
      exact ⟨rfl, by simp⟩

/-- The enumeration loop of `__init__` appends exactly the
velocity-disable commands of the joints it classifies as REVOLUTE. -/
theorem initJoints_cmds (raws : List RawJointInfo) :
    ∀ (d : List (String × JointInfo)) (cmds : List MotorControl2Cmd)
      (d2 : List (String × JointInfo)) (cmds2 : List MotorControl2Cmd),
      initJoints d cmds raws = some (d2, cmds2) →
      cmds2 = cmds ++ RevoluteDisableCmds raws := by
  induction raws with
  | nil =>
    intro d cmds d2 cmds2 h
    simp only [initJoints, Option.some.injEq, Prod.mk.injEq] at h
    simp [← h.2, RevoluteDisableCmds]
  | cons r rest ih =>
    intro d cmds d2 cmds2 h
    cases h2 : joint_type_list[r.typeCode]? with
    | none => rw [initJoints, h2] at h; cases h
    | some ty =>
      simp only [initJoints, h2] at h
      by_cases hty : ty = "REVOLUTE"
      · rw [if_pos hty] at h
        have hrec := ih _ _ _ _ h
        rw [hrec]
        have hprop : joint_type_list[r.typeCode]? = some "REVOLUTE" := by rw [h2, hty]
        simp [RevoluteDisableCmds, List.filter_cons, hprop, List.append_assoc]
      · rw [if_neg hty] at h
        have hrec := ih _ _ _ _ h
        rw [hrec]
        have hprop : ¬ joint_type_list[r.typeCode]? = some "REVOLUTE" := by
          rw [h2]
          exact fun hc => hty (Option.some.inj hc)
        simp [RevoluteDisableCmds, List.filter_cons, hprop]

/-- The resolution loop fails exactly when some configuration key is
missing from the registry. -/
theorem resolveEntries_none_iff (joints : List (String × JointInfo)) :
    ∀ cfg : List (String × SVal),
      resolveEntries joints cfg = none ↔ ∃ np ∈ cfg, dictLookup joints np.1 = none := by
  intro cfg
  induction cfg with
  | nil => simp [resolveEntries]
  | cons np rest ih =>
    obtain ⟨name, pose⟩ := np
    cases hl : dictLookup joints name with
    | none =>
      simp only [resolveEntries, hl]
      exact ⟨fun _ => ⟨(name, pose), List.mem_cons_self _ _, hl⟩, fun _ => trivial⟩
    | some j =>
      cases hr : resolveEntries joints rest with
      | none =>
        simp only [resolveEntries, hl, hr]
        constructor
        · intro _
          obtain ⟨np2, hnp2, hlk⟩ := ih.mp hr
          exact ⟨np2, List.mem_cons_of_mem _ hnp2, hlk⟩
        · intro _; trivial
      | some tail =>
        simp only [resolveEntries, hl, hr]
        constructor
        · intro hcontr; cases hcontr
        · intro hex
          obtain ⟨np2, hnp2, hlk⟩ := hex
          rcases List.mem_cons.mp hnp2 with h1 | h1
          · rw [h1] at hlk
            rw [hlk] at hl
            cases hl
          · have : resolveEntries joints rest = none := ih.mpr ⟨np2, h1, hlk⟩
            rw [this] at hr
            cases hr

/-- On success, the resolution loop produces, entry by entry, the
configuration value, the looked-up joint's id and its max force. -/
theorem resolveEntries_spec (joints : List (String × JointInfo)) :
    ∀ (cfg : List (String × SVal)) (entries : List (SVal × Int × SVal)),
      resolveEntries joints cfg = some entries →
      ∃ js : List JointInfo,
        List.Forall₂ (fun np j => dictLookup joints np.1 = some j) cfg js ∧
        entries.map (fun e => e.1) = cfg.map (fun np => np.2) ∧
        entries.map (fun e => e.2.1) = js.map JointInfo.id ∧
        entries.map (fun e => e.2.2) = js.map JointInfo.maxForce ∧
        entries.length = cfg.length := by
  intro cfg
  induction cfg with
  | nil =>
    intro entries h
    simp only [resolveEntries, Option.some.injEq] at h
    subst h
    exact ⟨[], List.Forall₂.nil, rfl, rfl, rfl, rfl⟩
  | cons np rest ih =>
    obtain ⟨name, pose⟩ := np
    intro entries h
    cases hl : dictLookup joints name with
    | none =>
      simp only [resolveEntries, hl] at h
      exact Option.noConfusion h
    | some j =>
      cases hr : resolveEntries joints rest with
      | none =>
        simp only [resolveEntries, hl, hr] at h
        exact Option.noConfusion h
      | some tail =>
        simp only [resolveEntries, hl, hr, Option.some.injEq] at h
        subst h
        obtain ⟨js, h1, h2, h3, h4, h5⟩ := ih tail hr
        refine ⟨j :: js, List.Forall₂.cons hl h1, ?_, ?_, ?_, ?_⟩
        · simp [h2]
        · simp [h3]
        · simp [h4]
        · simp [h5]

/-- C3: for every configuration containing at least one key that is not a
registered joint name, `set_joint_angles` raises a `KeyError` (modelled
`none`) rather than silently skipping it; conversely, when every key
resolves, no such error is raised. -/
theorem set_joint_angles_fails_iff_unknown_key
    (joints : List (String × JointInfo)) (cfg : List (String × SVal)) :
    set_joint_angles joints cfg = none ↔ ∃ np ∈ cfg, dictLookup joints np.1 = none := by
  constructor
  · intro h
    apply (resolveEntries_none_iff joints cfg).mp
    cases hr : resolveEntries joints cfg with
    | none => rfl
    | some entries =>
      rw [set_joint_angles, hr] at h
      exact Option.noConfusion h
  · intro hex
    have hnone := (resolveEntries_none_iff joints cfg).mpr hex
    rw [set_joint_angles, hnone]

/-- C4: whenever every key of the configuration resolves,
`set_joint_angles` issues one batched position-control command whose
parallel arrays all have the configuration's length, whose target
velocities are all zero, whose position gains are all `0.04`, and whose
`i`-th force slot is the registered max force of the joint whose id and
target position occupy index `i`. -/
theorem set_joint_angles_batch_shape (joints : List (String × JointInfo))
    (cfg : List (String × SVal)) (cmd : MotorArrayCmd)
    (h : set_joint_angles joints cfg = some cmd) : BatchShape joints cfg cmd := by
  rw [set_joint_angles] at h
  cases hr : resolveEntries joints cfg with
  | none => rw [hr] at h; exact Option.noConfusion h
  | some entries =>
    rw [hr] at h
    injection h with h
    obtain ⟨js, h1, h2, h3, h4, h5⟩ := resolveEntries_spec joints cfg entries hr
    have hjs : js.length = cfg.length := (List.Forall₂.length_eq h1).symm
    refine ⟨js, h1, ?_, ?_, ?_, ?_, ?_, ?_, ?_, ?_, ?_, ?_⟩
    · rw [← h]; exact h3
    · rw [← h]; exact h2
    · rw [← h]
      show List.replicate entries.length SVal.zero = _
      rw [h5]
    · rw [← h]
      show List.replicate entries.length (SVal.ofRat (4/100)) = _
      rw [h5]
    · rw [← h]; exact h4
    · rw [← h]
      show (entries.map (fun e => e.2.1)).length = cfg.length
      rw [List.length_map, h5]
    · rw [← h]
      show (entries.map (fun e => e.1)).length = cfg.length
      rw [List.length_map, h5]
    · rw [← h]
      show (List.replicate entries.length SVal.zero).length = cfg.length
      rw [List.length_replicate, h5]
    · rw [← h]
      show (List.replicate entries.length (SVal.ofRat (4/100))).length = cfg.length
      rw [List.length_replicate, h5]
    · rw [← h]
      show (entries.map (fun e => e.2.2)).length = cfg.length
      rw [List.length_map, h5]

/-- C4 witness: the batched command for a two-joint configuration over the
registry built from `c4raws` has the stated shape. -/
theorem set_joint_angles_batch_shape_witness :
    set_joint_angles c4reg c4cfg = some c4cmd ∧ BatchShape c4reg c4cfg c4cmd :=
  ⟨rfl, set_joint_angles_batch_shape c4reg c4cfg c4cmd rfl⟩

/-- C1 counterexample: in the registry built from `c1raws`, the joint
named "ee_fixed_joint" has `controllable = false`, yet a configuration
whose (registry-present) key names it makes `set_joint_angles` issue a
motor command to exactly that joint's id.  The claim that a joint whose
descriptor has `controllable = false` is never actuated is therefore
false on the code. -/
theorem set_joint_angles_actuates_noncontrollable_joint :
    (dictLookup c1reg "ee_fixed_joint").map JointInfo.controllable = some false ∧
    (dictLookup c1reg "ee_fixed_joint").map JointInfo.id = some 8 ∧
    (set_joint_angles c1reg c1cfgBad).map MotorArrayCmd.indexes = some [8] :=
  ⟨rfl, rfl, rfl⟩

/-- C1 (amended): every joint that receives a motor command from
`set_joint_angles` is a joint registered under one of the configuration's
keys; the `controllable` flag is not consulted, so registry presence of
the key is the only guarantee. -/
theorem set_joint_angles_targets_any_registered_joint
    (joints : List (String × JointInfo)) (cfg : List (String × SVal))
    (cmd : MotorArrayCmd) (h : set_joint_angles joints cfg = some cmd) :
    TargetsRegistered joints cfg cmd := by
  intro idx hidx
  rw [set_joint_angles] at h
  cases hr : resolveEntries joints cfg with
  | none => rw [hr] at h; exact Option.noConfusion h
  | some entries =>
    rw [hr] at h
    injection h with h
    obtain ⟨js, h1, _, h3, _, _⟩ := resolveEntries_spec joints cfg entries hr
    rw [← h] at hidx
    have hidx2 : idx ∈ js.map JointInfo.id := by
      rw [← h3]; exact hidx
    obtain ⟨j, hj, hjid⟩ := List.mem_map.mp hidx2
    obtain ⟨np, hnp, hlk⟩ := forallTwo_mem_right h1 j hj
    exact ⟨np.1, np.2, j, hnp, hlk, hjid⟩

/-- C1 (amended) witness: for a configuration naming the controllable
joint of `c1reg`, the issued command only targets joints registered under
the configuration's keys. -/
theorem set_joint_angles_targets_any_registered_joint_witness :
    set_joint_angles c1reg c1cfgGood = some c1cmd ∧
    TargetsRegistered c1reg c1cfgGood c1cmd :=
  ⟨rfl, set_joint_angles_targets_any_registered_joint c1reg c1cfgGood c1cmd rfl⟩

/-- C10: an empty configuration raises no error: `set_joint_angles`
issues the single batched command with all five parallel arrays empty, so
no joint's motor target is touched. -/
theorem set_joint_angles_empty_config (joints : List (String × JointInfo)) :
    set_joint_angles joints [] =
      some { indexes := [], targetPositions := [], targetVelocities := [],
             positionGains := [], forces := [] } := rfl

/-- C2 counterexample: a robot description reporting none of the six
required controllable joint names still constructs normally — `__init__`
has no check that any controllable name is present, so the claimed fatal
load error does not occur. -/
theorem init_completes_with_missing_control_joints :
    (UR5Init c2raws).isSome = true ∧
    control_joints.all (fun n => !((c2raws.map RawJointInfo.name).contains n)) = true :=
  ⟨rfl, rfl⟩

/-- C2 (amended): `__init__` performs no presence check on the six
controllable joint names; for every reported joint list whose type codes
are valid indices into the classification table, construction completes
normally, whether or not any controllable name is present. -/
theorem init_completes_for_valid_type_codes (raws : List RawJointInfo)
    (h : ∀ r ∈ raws, r.typeCode < joint_type_list.length) :
    (UR5Init raws).isSome = true :=
  initJoints_isSome raws [] [] h

/-- C2 (amended) witness: construction completes on the report that
contains no controllable joint name. -/
theorem init_completes_for_valid_type_codes_witness :
    (∀ r ∈ c2raws, r.typeCode < joint_type_list.length) ∧
    (UR5Init c2raws).isSome = true :=
  ⟨by decide, init_completes_for_valid_type_codes c2raws (by decide)⟩

/-- C6: after `__init__` completes, every registry entry is keyed by its
descriptor's name and its descriptor has `controllable = true` exactly
when that name is one of the six fixed controllable joint names. -/
theorem registry_controllable_iff_in_control_joints (raws : List RawJointInfo)
    (d : List (String × JointInfo)) (cmds : List MotorControl2Cmd)
    (h : UR5Init raws = some (d, cmds)) : RegistryControllableOk d :=
  initJoints_registry raws [] [] d cmds h (fun p hp => absurd hp (List.not_mem_nil p))

/-- C6 witness: the registry built from the three-joint report `c6raws`
satisfies the controllable-iff property. -/
theorem registry_controllable_iff_in_control_joints_witness :
    UR5Init c6raws = some c6pair ∧ RegistryControllableOk c6pair.1 :=
  ⟨rfl, registry_controllable_iff_in_control_joints c6raws c6pair.1 c6pair.2 rfl⟩

/-- C8 counterexample: a revolute joint whose name is not in the fixed
six-element controllable list still receives the startup velocity-disable
command (zero target velocity, zero force), because the source only tests
the classified type, never list membership. -/
theorem revolute_outside_control_list_gets_disable_cmd :
    ("spare_revolute" ∉ control_joints) ∧
    (UR5Init c8raws).map Prod.snd = some [⟨9, SVal.zero, SVal.zero⟩] :=
  ⟨by decide, rfl⟩

/-- C8 (amended): during registry construction a joint receives the
startup velocity-disable command (zero target velocity, zero force) if
and only if its classified type is REVOLUTE, regardless of whether its
name is in the controllable list; the commands are exactly one per
reported REVOLUTE joint, in report order. -/
theorem startup_disable_iff_revolute (raws : List RawJointInfo)
    (d : List (String × JointInfo)) (cmds : List MotorControl2Cmd)
    (h : UR5Init raws = some (d, cmds)) : cmds = RevoluteDisableCmds raws := by
  have hc := initJoints_cmds raws [] [] d cmds h
  simpa using hc

/-- C8 (amended) witness: on the mixed report `c8wraws` the startup
commands are exactly those of its two revolute joints. -/
theorem startup_disable_iff_revolute_witness :
    UR5Init c8wraws = some c8wpair ∧ c8wpair.2 = RevoluteDisableCmds c8wraws :=
  ⟨rfl, startup_disable_iff_revolute c8wraws c8wpair.1 c8wpair.2 rfl⟩

/-- C5: the phase-event trace of `demo_simulation` is, cyclically, read
wall-clock time, solve, apply configuration, collision check, one
simulation step, sleep `1/30` s — after `n` iterations the trace is `n`
copies of that cycle followed by the prelude of the next one — and the
simulation-step phase occurs exactly once per iteration, unconditionally,
so `n` iterations advance simulated time by exactly `n` steps. -/
theorem demo_loop_cyclic_order (n : Nat) :
    demoTrace n = (List.replicate n tickCycle).flatten ++ demoPrelude ∧
    (demoTrace n).count LoopEvent.stepSim = n := by
  induction n with
  | zero => exact ⟨rfl, rfl⟩
  | succ n ih =>
    obtain ⟨h1, h2⟩ := ih
    constructor
    · rw [demoTrace, h1, List.replicate_succ', List.flatten_append]
      simp only [List.append_assoc]
      congr 1
    · rw [demoTrace, List.count_append, h2]
      rfl

/-- C7: `check_collisions` queries the simulator's contact list exactly
once per call, returns `true` exactly when at least one contact point
exists (regardless of how many), and logs a timestamped event in exactly
the `true` case. -/
theorem check_collisions_contact_iff {α : Type} (contacts : List α) (now : ℚ) :
    ((check_collisions contacts now).1 = true ↔ contacts ≠ []) ∧
    (check_collisions contacts now).2.count CollEvent.query = 1 ∧
    (CollEvent.logCollision now ∈ (check_collisions contacts now).2 ↔ contacts ≠ []) := by
  cases contacts with
  | nil => simp [check_collisions]
  | cons c cs => simp [check_collisions]

/-- C9: for every target position and Euler orientation, `calculate_ik`
converts the orientation via the simulator's Euler-to-quaternion function
and invokes the simulator's IK on end-effector link 7 with per-joint
damping `0.01` (`⟨1/100, 0⟩` in the `a + b·π` scalar encoding), lower
limits `-π` (`⟨0, -1⟩`), upper limits `π` (`⟨0, 1⟩`), joint ranges `2π`
(`⟨0, 2⟩`), and the fixed rest pose `(0, -π/2, -π/2, -π/2, -π/2, 0)` as
seed, returning the solver's result directly with no failure branch. -/
theorem calculate_ik_call_arguments {V E Q R : Type}
    (getQuaternionFromEuler : E → Q) (calculateInverseKinematics : IKCall V Q → R)
    (position : V) (orientation : E) :
    calculate_ik getQuaternionFromEuler calculateInverseKinematics position orientation =
      calculateInverseKinematics
        { endEffectorIndex := 7,
          position := position,
          targetOrientation := getQuaternionFromEuler orientation,
          jointDamping := List.replicate 6 ⟨1/100, 0⟩,
          lowerLimits := List.replicate 6 ⟨0, -1⟩,
          upperLimits := List.replicate 6 ⟨0, 1⟩,
          jointRanges := List.replicate 6 ⟨0, 2⟩,
          restPoses := [⟨0, 0⟩, ⟨0, -(1/2)⟩, ⟨0, -(1/2)⟩,
                        ⟨0, -(1/2)⟩, ⟨0, -(1/2)⟩, ⟨0, 0⟩] } := rfl
